import Mathlib

/-!
Shallow embedding of the scraping-and-normalization pipeline of
`custom_components/apsystems_scrap/apsystems_ecu.py`.

The embedding models:
 * Python's `int(...)` / `float(...)` text coercion (on the decimal literal
   fragment actually produced by the scraped pages; exponent notation,
   underscores, `inf`/`nan` are outside the inputs this program sees),
 * `datetime.datetime.strptime(s, "%Y-%m-%d %H:%M:%S")` as a format check
   over the six numeric components,
 * the data classes `SolarModule`, `InverterData`, `EcuData`,
 * the summary-page field extraction of `EcuClient.get_ecu_data`
   (lines 78-156) with its per-field `try/except` defaults,
 * the realtime-data row loop (lines 165-267) as a fold over the row list,
   with logged warnings/errors counted in the fold state,
 * the orchestration and the outer bare `except: return None` (line 271),
   modelled as an `Except`-valued body collapsed to `Option`.

HTML documents are abstracted at the point where BeautifulSoup hands the
code plain text: the summary page as an association list from `th` label
text to the optional text of the following `td` sibling, the realtime page
as the list of its rows, each row the list of its `td` cell texts.
-/

/-- Value of a list of decimal digit characters, most significant first
(the accumulator loop of positional notation). -/
def digitsVal (l : List Char) : Nat :=
  l.foldl (fun n c => n * 10 + (c.toNat - 48)) 0

/-- A nonempty all-digit character list parses to its value; anything else
is a parse failure. -/
def digitsToNat (l : List Char) : Option Nat :=
  if l ≠ [] ∧ l.all Char.isDigit then some (digitsVal l) else none

/-- Drop leading and trailing whitespace characters: Python `str.strip()`
(over the ASCII whitespace occurring in these pages). -/
def trimChars (l : List Char) : List Char :=
  ((l.dropWhile Char.isWhitespace).reverse.dropWhile Char.isWhitespace).reverse

/-- Python `str.strip()` on a string. -/
def pyStrip (s : String) : String := String.mk (trimChars s.data)

/-- Split a character list at every character satisfying the predicate,
keeping empty groups (so `splitByPred p []` is `[[]]`, one empty group). -/
def splitByPred (p : Char → Bool) : List Char → List (List Char)
  | [] => [[]]
  | a :: as =>
    let r := splitByPred p as
    if p a then [] :: r
    else
      match r with
      | [] => [[a]]
      | g :: gs => (a :: g) :: gs

/-- Python `s.split(sep)` for a one-character separator (the only form the
code uses: `"-"`), yielding `[""]` on the empty string like Python. -/
def pySplitOn (s : String) (c : Char) : List String :=
  (splitByPred (fun a => a = c) s.data).map String.mk

/-- One bounded pass of left-to-right non-overlapping pattern removal;
the fuel starts at the list length, enough for every step to consume at
least one character (all patterns the code passes are nonempty). -/
def stripPatAux (pat : List Char) : Nat → List Char → List Char
  | _, [] => []
  | 0, l => l
  | n + 1, c :: cs =>
    if pat.isPrefixOf (c :: cs) then
      stripPatAux pat n (cs.drop (pat.length - 1))
    else c :: stripPatAux pat n cs

/-- Python `s.replace(pat, "")`, the only `str.replace` form the code
uses: remove every non-overlapping occurrence of `pat`, scanning left to
right. -/
def pyReplace (s pat : String) : String :=
  String.mk (stripPatAux pat.data s.data.length s.data)

/-- Python `int(s)`: strip surrounding whitespace, optional sign, then a
nonempty run of decimal digits and nothing else; otherwise `ValueError`,
modelled as `none`. -/
def pyInt (s : String) : Option Int :=
  match trimChars s.data with
  | '-' :: r => (digitsToNat r).map (fun n => -(n : Int))
  | '+' :: r => (digitsToNat r).map (fun n => (n : Int))
  | r => (digitsToNat r).map (fun n => (n : Int))

/-- Value of the decimal literal `a.b` (integer part `a`, fractional part
`b`) as a rational. -/
def decimalVal (a b : List Char) : Rat :=
  (digitsVal a : Rat) + (digitsVal b : Rat) / ((10 : Rat) ^ b.length)

/-- Python `float(s)` on plain decimal literals: strip whitespace, optional
sign, then digits with at most one decimal point and at least one digit;
otherwise `ValueError`, modelled as `none`. The exact binary rounding of
the resulting Python float is irrelevant to the program (values are only
stored and displayed), so the parsed value is kept as a rational. -/
def pyFloat (s : String) : Option Rat :=
  let core : List Char → Option Rat := fun body =>
    match splitByPred (fun a => a = '.') body with
    | [a] => (digitsToNat a).map (fun n => (n : Rat))
    | [a, b] =>
        if (a ≠ [] ∨ b ≠ []) ∧ a.all Char.isDigit ∧ b.all Char.isDigit then
          some (decimalVal a b)
        else none
    | _ => none
  match trimChars s.data with
  | '-' :: r => (core r).map (fun q => -q)
  | '+' :: r => core r
  | r => core r

/-- A naive wall-clock datetime, the result of a successful
`datetime.datetime.strptime` call. -/
structure PyDateTime where
  year : Nat
  month : Nat
  day : Nat
  hour : Nat
  minute : Nat
  second : Nat
deriving DecidableEq, Repr

/-- Model of `datetime.datetime.strptime(s, "%Y-%m-%d %H:%M:%S")`: date part and
time part separated by whitespace, `-`/`:`-separated numeric components
with the widths `strptime` accepts (`%Y` up to four digits, the rest up to
two) and in-range month/day/hour/minute/second; any mismatch raises
`ValueError`, modelled as `none`. Day-of-month validity is checked against
the uniform bound 31 rather than the per-month calendar. -/
def strptimeYmdHMS (s : String) : Option PyDateTime :=
  match (splitByPred Char.isWhitespace s.data).filter (fun t => t ≠ []) with
  | [d, t] =>
    match splitByPred (fun a => a = '-') d, splitByPred (fun a => a = ':') t with
    | [y, mo, da], [h, mi, se] =>
      match digitsToNat y, digitsToNat mo, digitsToNat da,
          digitsToNat h, digitsToNat mi, digitsToNat se with
      | some yv, some mv, some dv, some hv, some miv, some sv =>
        if y.length ≤ 4 ∧ mo.length ≤ 2 ∧ da.length ≤ 2 ∧ h.length ≤ 2 ∧
            mi.length ≤ 2 ∧ se.length ≤ 2 ∧
            1 ≤ yv ∧ 1 ≤ mv ∧ mv ≤ 12 ∧ 1 ≤ dv ∧ dv ≤ 31 ∧
            hv ≤ 23 ∧ miv ≤ 59 ∧ sv ≤ 59 then
          some ⟨yv, mv, dv, hv, miv, sv⟩
        else none
      | _, _, _, _, _, _ => none
    | _, _ => none
  | _ => none

/-- The value held by `InverterData._reportingtime`: either the parsed
datetime, or the integer `0` the code assigns when `strptime` raises
(line 213: `f = 0`). -/
inductive ReportTime where
  | time (t : PyDateTime)
  | zero
deriving DecidableEq, Repr

/-- Python `class SolarModule` (lines 11-16): one panel's readings. -/
structure SolarModule where
  _id : String
  _power : Int
  _dcvoltage : Int
  _gridvoltage : Int
deriving DecidableEq, Repr

/-- Python `class InverterData` (lines 19-31): one inverter with its ordered
module list (`_solarmodules` starts empty in `__init__`). -/
structure InverterData where
  _id : String
  _freq : Rat
  _temperature : Int
  _reportingtime : ReportTime
  _solarmodules : List SolarModule
deriving DecidableEq, Repr

/-- Method `InverterData.add_solar_module` (lines 27-28): append to the module
list. -/
def InverterData.add_solar_module (inv : InverterData) (sm : SolarModule) :
    InverterData :=
  { inv with _solarmodules := inv._solarmodules ++ [sm] }

/-- Python `class EcuData` (lines 34-62): the gateway snapshot (`_inverters`
starts empty in `__init__`). -/
structure EcuData where
  _id : String
  _address : String
  _alias : String
  _power : Int
  _lifetimeGeneration : Rat
  _dailyEnergy : Rat
  _inverters : List InverterData
  _numberOfInverters : Int
  _numberOfInvertersOnline : Int
  _softwareVersion : String
deriving DecidableEq, Repr

/-- Method `EcuData.add_inverter` (lines 58-59): append to the inverter list. -/
def EcuData.add_inverter (e : EcuData) (inv : InverterData) : EcuData :=
  { e with _inverters := e._inverters ++ [inv] }

/-! ## Realtime-data row processing (lines 165-267) -/

/-- Cell access plus integer coercion as written in the row loop:
`int(cells[i].text.replace(pat, "").strip())` inside `try/except`. A
missing cell (`IndexError`) and an unparsable text (`ValueError`) are
caught by the same `except`, yielding default `0` and a warning, reported
here as the `Bool` component. -/
def tryIntCell (row : List String) (i : Nat) (pat : String) : Int × Bool :=
  match row.get? i with
  | none => (0, true)
  | some s =>
    match pyInt (pyStrip (pyReplace s pat)) with
    | none => (0, true)
    | some n => (n, false)

/-- Coercion `float(cells[i].text.replace(pat, "").strip())` inside `try/except`
(the frequency cell); default `0` plus a warning on failure. -/
def tryFloatCell (row : List String) (i : Nat) (pat : String) :
    Rat × Bool :=
  match row.get? i with
  | none => (0, true)
  | some s =>
    match pyFloat (pyStrip (pyReplace s pat)) with
    | none => (0, true)
    | some q => (q, false)

/-- Coercion `datetime.datetime.strptime(cells[i].text.strip(), "%Y-%m-%d
%H:%M:%S")` inside `try/except` (lines 208-214); the handler assigns the
integer `0` and logs a warning. -/
def tryTimeCell (row : List String) (i : Nat) : ReportTime × Bool :=
  match row.get? i with
  | none => (ReportTime.zero, true)
  | some s =>
    match strptimeYmdHMS (pyStrip s) with
    | none => (ReportTime.zero, true)
    | some t => (ReportTime.time t, false)

/-- The state threaded through the row loop: the nullable `currInverter`,
the inverter list accumulated in `ecuData` so far, and counts of the
`_LOGGER.warning` and `_LOGGER.error` calls made. -/
structure RowState where
  curr : Option InverterData
  invs : List InverterData
  warns : Nat
  errs : Nat
deriving DecidableEq, Repr

/-- Loop entry state: `currInverter = None`, no inverters appended. -/
def initState : RowState := ⟨none, [], 0, 0⟩

/-- Line 169: `id = cells[0].text.strip()`. -/
def rowId (row : List String) : String := pyStrip (row.headD "")

/-- Lines 222 and 256: `id_parts = id.split("-")`. -/
def idParts (row : List String) : List String := pySplitOn (rowId row) '-'

/-- The inverter opened by a 7-cell row (lines 223-225):
`InverterData(id_parts[0], hz, temp, f)` with the frequency from cell 3,
the temperature from cell 5 and the timestamp from cell 6. -/
def newInverterOf (row : List String) : InverterData :=
  ⟨(idParts row).headD "", (tryFloatCell row 3 "Hz").1,
    (tryIntCell row 5 "Â°C").1, (tryTimeCell row 6).1, []⟩

/-- The module embedded in a 7-cell row (lines 228-229):
`SolarModule(id_parts[1], power, dc, ac)` with power from cell 1, dc
voltage from cell 2 and ac voltage from cell 4. -/
def embeddedModuleOf (row : List String) : SolarModule :=
  ⟨(idParts row).getD 1 "", (tryIntCell row 1 "W").1,
    (tryIntCell row 2 "V").1, (tryIntCell row 4 "V").1⟩

/-- The module carried by a continuation row (lines 256-258):
`SolarModule(id_parts[1], power, dc, ac)` with power from cell 1, dc
voltage from cell 2 and ac voltage from cell 3. -/
def contModuleOf (row : List String) : SolarModule :=
  ⟨(idParts row).getD 1 "", (tryIntCell row 1 "W").1,
    (tryIntCell row 2 "V").1, (tryIntCell row 3 "V").1⟩

/-- One iteration of the row loop (lines 166-261). Rows with no data
cells are skipped. A 7-cell row first parses its six value cells, then
flushes the open inverter into the gateway list if there is one, opens a
new inverter from `id_parts[0]` and the inverter-level cells, and appends
the embedded module — unless `id_parts[1]` raises `IndexError`, which is
logged as an error and swallowed, leaving the fresh inverter without
modules. Any other nonempty row is a continuation row: when an inverter
is open it gets the module from cells 1/2/3 appended (again skipped with
a logged error if `id_parts[1]` is out of range), and when none is open
the row is dropped. -/
def processRow (st : RowState) (row : List String) : RowState :=
  if row.length = 0 then st
  else if row.length = 7 then
    let pw := tryIntCell row 1 "W"
    let dc := tryIntCell row 2 "V"
    let hz := tryFloatCell row 3 "Hz"
    let ac := tryIntCell row 4 "V"
    let tp := tryIntCell row 5 "Â°C"
    let f := tryTimeCell row 6
    let w := pw.2.toNat + dc.2.toNat + hz.2.toNat + ac.2.toNat +
      tp.2.toNat + f.2.toNat
    let invs1 := match st.curr with
      | some inv => st.invs ++ [inv]
      | none => st.invs
    let newInv : InverterData :=
      ⟨(idParts row).headD "", hz.1, tp.1, f.1, []⟩
    match (idParts row).get? 1 with
    | some m =>
      ⟨some (newInv.add_solar_module ⟨m, pw.1, dc.1, ac.1⟩), invs1,
        st.warns + w, st.errs⟩
    | none => ⟨some newInv, invs1, st.warns + w, st.errs + 1⟩
  else
    match st.curr with
    | none => st
    | some inv =>
      let pw := tryIntCell row 1 "W"
      let dc := tryIntCell row 2 "V"
      let ac := tryIntCell row 3 "V"
      let w := pw.2.toNat + dc.2.toNat + ac.2.toNat
      match (idParts row).get? 1 with
      | some m =>
        ⟨some (inv.add_solar_module ⟨m, pw.1, dc.1, ac.1⟩), st.invs,
          st.warns + w, st.errs⟩
      | none => ⟨some inv, st.invs, st.warns + w, st.errs + 1⟩

/-- The whole `for row in ...` loop as a fold from the entry state. -/
def runRows (rows : List (List String)) : RowState :=
  rows.foldl processRow initState

/-- The flush after the loop (lines 263-267): a still-open inverter is
appended to the gateway list. -/
def flushFinal (st : RowState) : RowState :=
  match st.curr with
  | none => st
  | some inv => ⟨none, st.invs ++ [inv], st.warns, st.errs⟩

/-- The inverter list the realtime page contributes to the snapshot:
run the loop over the rows, then flush. -/
def invertersOf (rows : List (List String)) : List InverterData :=
  (flushFinal (runRows rows)).invs

/-- A well-formed realtime row per the page format: the first cell is a
composite identity `"<inverterId>-<moduleId>"`, so splitting on `"-"`
yields at least two parts and `id_parts[1]` exists. -/
abbrev wfId (row : List String) : Prop := 2 ≤ (idParts row).length

/-! ## Summary-page extraction (lines 78-156) -/

/-- The summary page at the point the code consumes it: each `th` header
cell's text paired with the text of its next `td` sibling, `none` when the
`th` has no following `td`. -/
abbrev SummaryDoc := List (String × Option String)

/-- Lookup `soup.body.table.find("th", text=lbl).find_next_sibling("td").text`:
the first header cell whose text equals the label, then its sibling value
text; `none` models the `AttributeError` raised when the label is absent
or the sibling is missing. -/
def findLabeledValue (doc : SummaryDoc) (lbl : String) : Option String :=
  match doc.find? (fun p => p.1 == lbl) with
  | none => none
  | some p => p.2

/-- The summary integer coercion `int(raw.replace(suffix, ""))` inside
`try/except`: default `0` plus a warning on `ValueError`. -/
def coerceInt (raw : String) (suffix : String) : Int × Bool :=
  match pyInt (pyReplace raw suffix) with
  | none => (0, true)
  | some n => (n, false)

/-- The summary float coercion `float(raw.replace(suffix, ""))` inside
`try/except`: default `0` plus a warning on `ValueError`. -/
def coerceFloat (raw : String) (suffix : String) : Rat × Bool :=
  match pyFloat (pyReplace raw suffix) with
  | none => (0, true)
  | some q => (q, false)

/-- Lines 84-92: `lifetimegen`, label "Lifetime generation", suffix
" kWh", default `0`. A failed label lookup raises inside the same `try`
as the coercion, so both failure shapes yield the default and a warning. -/
def lifetimeField (doc : SummaryDoc) : Rat × Bool :=
  match findLabeledValue doc "Lifetime generation" with
  | none => (0, true)
  | some s => coerceFloat s " kWh"

/-- Lines 94-102: `power`, label "Last System Power", suffix " W",
default `0`. -/
def powerField (doc : SummaryDoc) : Int × Bool :=
  match findLabeledValue doc "Last System Power" with
  | none => (0, true)
  | some s => coerceInt s " W"

/-- Lines 104-112: `energy`, label "Generation of Current Day", suffix
" kWh", default `0.0`. -/
def energyField (doc : SummaryDoc) : Rat × Bool :=
  match findLabeledValue doc "Generation of Current Day" with
  | none => (0, true)
  | some s => coerceFloat s " kWh"

/-- Lines 114-122: `numberOfInverters`, label "Number of Inverters", no
suffix, default `0`. -/
def numInvField (doc : SummaryDoc) : Int × Bool :=
  match findLabeledValue doc "Number of Inverters" with
  | none => (0, true)
  | some s =>
    match pyInt s with
    | none => (0, true)
    | some n => (n, false)

/-- Lines 124-134: `numberOfInvertersOnline`, label "Last Number of
Inverters Online", no suffix, default `0`. -/
def numInvOnlineField (doc : SummaryDoc) : Int × Bool :=
  match findLabeledValue doc "Last Number of Inverters Online" with
  | none => (0, true)
  | some s =>
    match pyInt s with
    | none => (0, true)
    | some n => (n, false)

/-- Lines 136-144: `softwareVersion`, label "Current Software Version",
`str(...)` of the text, default `""`. On a string `str` cannot fail, so
the only failure shape is the missing label/sibling. -/
def swVersionField (doc : SummaryDoc) : String × Bool :=
  match findLabeledValue doc "Current Software Version" with
  | none => ("", true)
  | some s => (s, false)

/-- Lines 146-156: the `EcuData(...)` constructed from the summary page
(inverter list still empty). `idStr` is the already-extracted ECU ID. -/
def extractSummary (doc : SummaryDoc) (idStr addr al : String) : EcuData :=
  ⟨idStr, addr, al, (powerField doc).1, (lifetimeField doc).1,
    (energyField doc).1, [], (numInvField doc).1,
    (numInvOnlineField doc).1, (swVersionField doc).1⟩

/-! ## Orchestration (lines 71-272) -/

/-- The exceptions that can escape to the outer bare `except` of
`get_ecu_data`: network/session errors from either HTTP request, and the
`AttributeError` from the unguarded ECU ID lookup (lines 78-82). -/
inductive PyErr where
  | network
  | attrErr
deriving DecidableEq, Repr

/-- The outside world of one fetch cycle: the two HTTP responses, `none`
meaning the request (or reading/parsing its body down to the table) raised. -/
structure FetchInput where
  summary : Option SummaryDoc
  realtime : Option (List (List String))
deriving Repr

/-- The body of `get_ecu_data` inside the outer `try` (lines 72-269):
fetch the summary page, extract the ECU ID (raising if absent), build the
summary `EcuData`, fetch the realtime page, run the row loop to populate
the inverters, and return the snapshot. Raised exceptions are the
`Except.error` outcomes. -/
def get_ecu_data_body (addr al : String) (inp : FetchInput) :
    Except PyErr EcuData :=
  match inp.summary with
  | none => Except.error PyErr.network
  | some doc =>
    match findLabeledValue doc "ECU ID" with
    | none => Except.error PyErr.attrErr
    | some idStr =>
      match inp.realtime with
      | none => Except.error PyErr.network
      | some rows =>
        Except.ok
          { extractSummary doc idStr addr al with
              _inverters := invertersOf rows }

/-- Function `get_ecu_data` as the caller sees it: the outer bare
`except: return None` (lines 271-272) collapses every raised exception to
`None`; on success the populated snapshot is returned. -/
def get_ecu_data (addr al : String) (inp : FetchInput) : Option EcuData :=
  match get_ecu_data_body addr al inp with
  | Except.error _ => none
  | Except.ok d => some d

/-! ## Per-field view of the summary record (for field isolation) -/

/-- The six non-identity summary fields extracted with per-field
`try/except` defaults. -/
inductive SummaryField where
  | lifetime
  | sysPower
  | daily
  | numInverters
  | numOnline
  | software
deriving DecidableEq, Repr, Fintype

/-- The `th` label text each summary field is looked up under. -/
def fieldLabel : SummaryField → String
  | SummaryField.lifetime => "Lifetime generation"
  | SummaryField.sysPower => "Last System Power"
  | SummaryField.daily => "Generation of Current Day"
  | SummaryField.numInverters => "Number of Inverters"
  | SummaryField.numOnline => "Last Number of Inverters Online"
  | SummaryField.software => "Current Software Version"

/-- A summary field value, over the three types occurring among the six
fields. -/
inductive FieldVal where
  | i (n : Int)
  | r (q : Rat)
  | s (v : String)
deriving DecidableEq, Repr

/-- A field's extraction outcome: its value and whether a warning was
logged (lookup or coercion failed). -/
def coerceField (doc : SummaryDoc) : SummaryField → FieldVal × Bool
  | SummaryField.lifetime => (FieldVal.r (lifetimeField doc).1, (lifetimeField doc).2)
  | SummaryField.sysPower => (FieldVal.i (powerField doc).1, (powerField doc).2)
  | SummaryField.daily => (FieldVal.r (energyField doc).1, (energyField doc).2)
  | SummaryField.numInverters => (FieldVal.i (numInvField doc).1, (numInvField doc).2)
  | SummaryField.numOnline => (FieldVal.i (numInvOnlineField doc).1, (numInvOnlineField doc).2)
  | SummaryField.software => (FieldVal.s (swVersionField doc).1, (swVersionField doc).2)

/-- Reading a summary field back out of the constructed `EcuData`. -/
def getField (e : EcuData) : SummaryField → FieldVal
  | SummaryField.lifetime => FieldVal.r e._lifetimeGeneration
  | SummaryField.sysPower => FieldVal.i e._power
  | SummaryField.daily => FieldVal.r e._dailyEnergy
  | SummaryField.numInverters => FieldVal.i e._numberOfInverters
  | SummaryField.numOnline => FieldVal.i e._numberOfInvertersOnline
  | SummaryField.software => FieldVal.s e._softwareVersion

/-- The documented per-field default written in each `except` handler. -/
def fieldDefault : SummaryField → FieldVal
  | SummaryField.lifetime => FieldVal.r 0
  | SummaryField.sysPower => FieldVal.i 0
  | SummaryField.daily => FieldVal.r 0
  | SummaryField.numInverters => FieldVal.i 0
  | SummaryField.numOnline => FieldVal.i 0
  | SummaryField.software => FieldVal.s ""

lemma getField_extractSummary (doc : SummaryDoc) (idStr addr al : String)
    (f : SummaryField) :
    getField (extractSummary doc idStr addr al) f = (coerceField doc f).1 := by
  cases f <;> rfl

lemma coerceField_congr (d d' : SummaryDoc) (f : SummaryField)
    (h : findLabeledValue d (fieldLabel f) = findLabeledValue d' (fieldLabel f)) :
    coerceField d f = coerceField d' f := by
  cases f <;>
    simp only [coerceField, lifetimeField, powerField, energyField,
      numInvField, numInvOnlineField, swVersionField, fieldLabel] at h ⊢ <;>
    rw [h]

lemma coerceField_fail_default (d : SummaryDoc) (f : SummaryField)
    (h : (coerceField d f).2 = true) :
    (coerceField d f).1 = fieldDefault f := by
  cases f <;>
    simp only [coerceField, lifetimeField, powerField, energyField,
      numInvField, numInvOnlineField, swVersionField, coerceInt, coerceFloat,
      fieldDefault] at h ⊢ <;>
    repeat' (split at h <;> simp_all)

/-! ## Row-loop step lemmas -/

lemma idParts_get1 (row : List String) (h : 2 ≤ (idParts row).length) :
    (idParts row).get? 1 = some ((idParts row).getD 1 "") := by
  have h1 : 1 < (idParts row).length := h
  rw [List.getD_eq_getElem _ _ h1]
  exact List.get?_eq_get h1

lemma idParts_get1_none (row : List String) (h : ¬ 2 ≤ (idParts row).length) :
    (idParts row).get? 1 = none := by
  refine List.get?_eq_none.mpr ?_
  omega

lemma processRow_seven (st : RowState) (row : List String)
    (h7 : row.length = 7) (hwf : wfId row) :
    processRow st row =
      ⟨some ((newInverterOf row).add_solar_module (embeddedModuleOf row)),
        st.invs ++ st.curr.toList,
        st.warns + ((tryIntCell row 1 "W").2.toNat +
          (tryIntCell row 2 "V").2.toNat + (tryFloatCell row 3 "Hz").2.toNat +
          (tryIntCell row 4 "V").2.toNat + (tryIntCell row 5 "Â°C").2.toNat +
          (tryTimeCell row 6).2.toNat),
        st.errs⟩ := by
  unfold processRow
  rw [if_neg (by omega), if_pos h7, idParts_get1 row hwf]
  cases st.curr <;>
    simp [newInverterOf, embeddedModuleOf, InverterData.add_solar_module]

lemma processRow_seven_nowf (st : RowState) (row : List String)
    (h7 : row.length = 7) (hnwf : ¬ wfId row) :
    processRow st row =
      ⟨some (newInverterOf row),
        st.invs ++ st.curr.toList,
        st.warns + ((tryIntCell row 1 "W").2.toNat +
          (tryIntCell row 2 "V").2.toNat + (tryFloatCell row 3 "Hz").2.toNat +
          (tryIntCell row 4 "V").2.toNat + (tryIntCell row 5 "Â°C").2.toNat +
          (tryTimeCell row 6).2.toNat),
        st.errs + 1⟩ := by
  unfold processRow
  rw [if_neg (by omega), if_pos h7, idParts_get1_none row hnwf]
  cases st.curr <;> simp [newInverterOf]

lemma processRow_cont (st : RowState) (row : List String) (inv : InverterData)
    (h0 : row.length ≠ 0) (h7 : row.length ≠ 7) (hcur : st.curr = some inv)
    (hwf : wfId row) :
    processRow st row =
      ⟨some (inv.add_solar_module (contModuleOf row)), st.invs,
        st.warns + ((tryIntCell row 1 "W").2.toNat +
          (tryIntCell row 2 "V").2.toNat + (tryIntCell row 3 "V").2.toNat),
        st.errs⟩ := by
  unfold processRow
  rw [if_neg h0, if_neg h7, hcur]
  rw [idParts_get1 row hwf]
  simp [contModuleOf]

lemma processRow_drop (st : RowState) (row : List String)
    (h7 : row.length ≠ 7) (hcur : st.curr = none) :
    processRow st row = st := by
  unfold processRow
  by_cases h0 : row.length = 0
  · rw [if_pos h0]
  · rw [if_neg h0, if_neg h7, hcur]

lemma foldl_cont (conts : List (List String)) :
    ∀ (inv : InverterData) (invs : List InverterData) (w e : Nat),
    (∀ c ∈ conts, c.length ≠ 0 ∧ c.length ≠ 7 ∧ wfId c) →
    ∃ w' e', conts.foldl processRow ⟨some inv, invs, w, e⟩ =
      ⟨some { inv with
          _solarmodules := inv._solarmodules ++ conts.map contModuleOf },
        invs, w', e'⟩ := by
  induction conts with
  | nil => intro inv invs w e _; exact ⟨w, e, by simp⟩
  | cons c cs ih =>
    intro inv invs w e h
    obtain ⟨h0, h7, hwf⟩ := h c (List.mem_cons_self c cs)
    rw [List.foldl_cons,
      processRow_cont ⟨some inv, invs, w, e⟩ c inv h0 h7 rfl hwf]
    obtain ⟨w', e', hrec⟩ := ih (inv.add_solar_module (contModuleOf c)) invs
      (w + ((tryIntCell c 1 "W").2.toNat + (tryIntCell c 2 "V").2.toNat +
        (tryIntCell c 3 "V").2.toNat)) e
      (fun d hd => h d (List.mem_cons_of_mem c hd))
    refine ⟨w', e', ?_⟩
    rw [hrec]
    simp [InverterData.add_solar_module]

/-! ## Claim theorems -/

/-- C1: the Row-Group Reconstructor flushes before opening. On a
well-formed 7-cell row while an inverter is open, the open inverter is
appended to the gateway list and the row's new inverter (carrying its
embedded module) becomes current; for every row stream the final result
appends the still-open inverter exactly once after the fold; hence two
consecutive well-formed 7-cell rows yield exactly two inverters, each
with exactly one module, the first flushed before the second is opened. -/
theorem flush_before_open_spec :
    (∀ (st : RowState) (row : List String) (inv : InverterData),
      row.length = 7 → wfId row → st.curr = some inv →
      (processRow st row).invs = st.invs ++ [inv] ∧
      (processRow st row).curr =
        some ((newInverterOf row).add_solar_module (embeddedModuleOf row))) ∧
    (∀ rows : List (List String),
      invertersOf rows = (runRows rows).invs ++ (runRows rows).curr.toList) ∧
    (∀ r1 r2 : List String, r1.length = 7 → r2.length = 7 →
      wfId r1 → wfId r2 →
      invertersOf [r1, r2] =
        [(newInverterOf r1).add_solar_module (embeddedModuleOf r1),
          (newInverterOf r2).add_solar_module (embeddedModuleOf r2)] ∧
      ∀ inv ∈ invertersOf [r1, r2], inv._solarmodules.length = 1) := by
  refine ⟨?_, ?_, ?_⟩
  · intro st row inv h7 hwf hc
    rw [processRow_seven st row h7 hwf]
    simp [hc]
  · intro rows
    unfold invertersOf flushFinal
    cases h : (runRows rows).curr <;> simp [h]
  · intro r1 r2 h71 h72 hw1 hw2
    have hinv : invertersOf [r1, r2] =
        [(newInverterOf r1).add_solar_module (embeddedModuleOf r1),
          (newInverterOf r2).add_solar_module (embeddedModuleOf r2)] := by
      unfold invertersOf runRows
      rw [List.foldl_cons, processRow_seven initState r1 h71 hw1,
        List.foldl_cons]
      rw [processRow_seven _ r2 h72 hw2]
      simp [initState, flushFinal]
    refine ⟨hinv, ?_⟩
    intro inv hmem
    rw [hinv] at hmem
    simp only [List.mem_cons, List.not_mem_nil, or_false] at hmem
    rcases hmem with rfl | rfl <;>
      simp [InverterData.add_solar_module, newInverterOf]

/-- C1 witness: two concrete consecutive 7-cell rows produce the two
inverters, flushed in order, each with its single embedded module. -/
theorem flush_before_open_spec_witness :
    invertersOf
        [["406000111-1", "150 W", "30 V", "50.0 Hz", "230 V", "25 Â°C",
            "2024-05-01 12:00:00"],
          ["406000222-1", "160 W", "31 V", "49.9 Hz", "231 V", "26 Â°C",
            "2024-05-01 12:05:00"]] =
      [(newInverterOf
          ["406000111-1", "150 W", "30 V", "50.0 Hz", "230 V", "25 Â°C",
            "2024-05-01 12:00:00"]).add_solar_module
        (embeddedModuleOf
          ["406000111-1", "150 W", "30 V", "50.0 Hz", "230 V", "25 Â°C",
            "2024-05-01 12:00:00"]),
        (newInverterOf
          ["406000222-1", "160 W", "31 V", "49.9 Hz", "231 V", "26 Â°C",
            "2024-05-01 12:05:00"]).add_solar_module
        (embeddedModuleOf
          ["406000222-1", "160 W", "31 V", "49.9 Hz", "231 V", "26 Â°C",
            "2024-05-01 12:05:00"])] ∧
    ∀ inv ∈ invertersOf
        [["406000111-1", "150 W", "30 V", "50.0 Hz", "230 V", "25 Â°C",
            "2024-05-01 12:00:00"],
          ["406000222-1", "160 W", "31 V", "49.9 Hz", "231 V", "26 Â°C",
            "2024-05-01 12:05:00"]],
      inv._solarmodules.length = 1 :=
  flush_before_open_spec.2.2
    ["406000111-1", "150 W", "30 V", "50.0 Hz", "230 V", "25 Â°C",
      "2024-05-01 12:00:00"]
    ["406000222-1", "160 W", "31 V", "49.9 Hz", "231 V", "26 Â°C",
      "2024-05-01 12:05:00"]
    rfl rfl (by decide) (by decide)

/-- C2: a well-formed 7-cell row followed by n attached continuation rows
yields exactly one inverter whose module list is the embedded module
followed by the continuation modules in row order — n + 1 modules, so
n = 0 gives exactly the embedded module and n = 2 gives three. -/
theorem row_group_module_count (r : List String) (conts : List (List String))
    (h7 : r.length = 7) (hwf : wfId r)
    (hc : ∀ c ∈ conts, c.length ≠ 0 ∧ c.length ≠ 7 ∧ wfId c) :
    invertersOf (r :: conts) =
      [{ newInverterOf r with
          _solarmodules := embeddedModuleOf r :: conts.map contModuleOf }] ∧
    ({ newInverterOf r with
        _solarmodules := embeddedModuleOf r :: conts.map contModuleOf } :
        InverterData)._solarmodules.length = conts.length + 1 := by
  constructor
  · unfold invertersOf runRows
    rw [List.foldl_cons, processRow_seven initState r h7 hwf]
    obtain ⟨w', e', hrec⟩ := foldl_cont conts
      ((newInverterOf r).add_solar_module (embeddedModuleOf r))
      (initState.invs ++ initState.curr.toList) _ initState.errs hc
    rw [hrec]
    simp [flushFinal, initState, InverterData.add_solar_module, newInverterOf]
  · simp

/-- C2 witness: a concrete 7-cell row followed by two 4-cell continuation
rows yields one inverter with three modules in row order. -/
theorem row_group_module_count_witness :
    invertersOf
        [["406000111-1", "150 W", "30 V", "50.0 Hz", "230 V", "25 Â°C",
            "2024-05-01 12:00:00"],
          ["406000111-2", "140 W", "29 V", "231 V"],
          ["406000111-3", "130 W", "28 V", "229 V"]] =
      [{ newInverterOf
          ["406000111-1", "150 W", "30 V", "50.0 Hz", "230 V", "25 Â°C",
            "2024-05-01 12:00:00"] with
          _solarmodules :=
            embeddedModuleOf
                ["406000111-1", "150 W", "30 V", "50.0 Hz", "230 V",
                  "25 Â°C", "2024-05-01 12:00:00"] ::
              [["406000111-2", "140 W", "29 V", "231 V"],
                ["406000111-3", "130 W", "28 V", "229 V"]].map contModuleOf }] ∧
    ({ newInverterOf
        ["406000111-1", "150 W", "30 V", "50.0 Hz", "230 V", "25 Â°C",
          "2024-05-01 12:00:00"] with
        _solarmodules :=
          embeddedModuleOf
              ["406000111-1", "150 W", "30 V", "50.0 Hz", "230 V",
                "25 Â°C", "2024-05-01 12:00:00"] ::
            [["406000111-2", "140 W", "29 V", "231 V"],
              ["406000111-3", "130 W", "28 V", "229 V"]].map contModuleOf } :
        InverterData)._solarmodules.length =
      [["406000111-2", "140 W", "29 V", "231 V"],
        ["406000111-3", "130 W", "28 V", "229 V"]].length + 1 :=
  row_group_module_count
    ["406000111-1", "150 W", "30 V", "50.0 Hz", "230 V", "25 Â°C",
      "2024-05-01 12:00:00"]
    [["406000111-2", "140 W", "29 V", "231 V"],
      ["406000111-3", "130 W", "28 V", "229 V"]]
    rfl (by decide) (by decide)

/-- C3: row shape determines role and column layout. A 7-cell row opens a
new inverter taking frequency, temperature and report timestamp from cells
3, 5 and 6 and the embedded module's power, dc voltage and ac voltage from
cells 1, 2 and 4; any other nonempty row attaches to the open inverter a
module whose power, dc voltage and ac voltage come from cells 1, 2 and 3,
leaving the gateway inverter list untouched. -/
theorem row_shape_determines_role :
    (∀ (st : RowState) (row : List String), row.length = 7 → wfId row →
      (processRow st row).curr =
        some ⟨(idParts row).headD "", (tryFloatCell row 3 "Hz").1,
          (tryIntCell row 5 "Â°C").1, (tryTimeCell row 6).1,
          [⟨(idParts row).getD 1 "", (tryIntCell row 1 "W").1,
            (tryIntCell row 2 "V").1, (tryIntCell row 4 "V").1⟩]⟩) ∧
    (∀ (st : RowState) (row : List String) (inv : InverterData),
      row.length ≠ 0 → row.length ≠ 7 → st.curr = some inv → wfId row →
      (processRow st row).curr =
        some (inv.add_solar_module
          ⟨(idParts row).getD 1 "", (tryIntCell row 1 "W").1,
            (tryIntCell row 2 "V").1, (tryIntCell row 3 "V").1⟩) ∧
      (processRow st row).invs = st.invs) := by
  constructor
  · intro st row h7 hwf
    rw [processRow_seven st row h7 hwf]
    simp [newInverterOf, embeddedModuleOf, InverterData.add_solar_module]
  · intro st row inv h0 h7 hc hwf
    rw [processRow_cont st row inv h0 h7 hc hwf]
    simp [contModuleOf]

/-- C3 witness: the two branch characterizations at a concrete 7-cell row
and a concrete 4-cell continuation row. -/
theorem row_shape_determines_role_witness :
    (processRow initState
        ["406000111-1", "150 W", "30 V", "50.0 Hz", "230 V", "25 Â°C",
          "2024-05-01 12:00:00"]).curr =
      some ⟨(idParts
          ["406000111-1", "150 W", "30 V", "50.0 Hz", "230 V", "25 Â°C",
            "2024-05-01 12:00:00"]).headD "",
        (tryFloatCell
          ["406000111-1", "150 W", "30 V", "50.0 Hz", "230 V", "25 Â°C",
            "2024-05-01 12:00:00"] 3 "Hz").1,
        (tryIntCell
          ["406000111-1", "150 W", "30 V", "50.0 Hz", "230 V", "25 Â°C",
            "2024-05-01 12:00:00"] 5 "Â°C").1,
        (tryTimeCell
          ["406000111-1", "150 W", "30 V", "50.0 Hz", "230 V", "25 Â°C",
            "2024-05-01 12:00:00"] 6).1,
        [⟨(idParts
            ["406000111-1", "150 W", "30 V", "50.0 Hz", "230 V", "25 Â°C",
              "2024-05-01 12:00:00"]).getD 1 "",
          (tryIntCell
            ["406000111-1", "150 W", "30 V", "50.0 Hz", "230 V", "25 Â°C",
              "2024-05-01 12:00:00"] 1 "W").1,
          (tryIntCell
            ["406000111-1", "150 W", "30 V", "50.0 Hz", "230 V", "25 Â°C",
              "2024-05-01 12:00:00"] 2 "V").1,
          (tryIntCell
            ["406000111-1", "150 W", "30 V", "50.0 Hz", "230 V", "25 Â°C",
              "2024-05-01 12:00:00"] 4 "V").1⟩]⟩ ∧
    ((processRow
        ⟨some ⟨"406000111", 50, 25, ReportTime.zero, []⟩, [], 0, 0⟩
        ["406000111-2", "140 W", "29 V", "231 V"]).curr =
      some ((⟨"406000111", 50, 25, ReportTime.zero, []⟩ :
          InverterData).add_solar_module
        ⟨(idParts ["406000111-2", "140 W", "29 V", "231 V"]).getD 1 "",
          (tryIntCell ["406000111-2", "140 W", "29 V", "231 V"] 1 "W").1,
          (tryIntCell ["406000111-2", "140 W", "29 V", "231 V"] 2 "V").1,
          (tryIntCell ["406000111-2", "140 W", "29 V", "231 V"] 3 "V").1⟩) ∧
      (processRow
        ⟨some ⟨"406000111", 50, 25, ReportTime.zero, []⟩, [], 0, 0⟩
        ["406000111-2", "140 W", "29 V", "231 V"]).invs = []) :=
  ⟨row_shape_determines_role.1 initState
    ["406000111-1", "150 W", "30 V", "50.0 Hz", "230 V", "25 Â°C",
      "2024-05-01 12:00:00"] rfl (by decide),
    row_shape_determines_role.2
      ⟨some ⟨"406000111", 50, 25, ReportTime.zero, []⟩, [], 0, 0⟩
      ["406000111-2", "140 W", "29 V", "231 V"]
      ⟨"406000111", 50, 25, ReportTime.zero, []⟩
      (by decide) (by decide) rfl (by decide)⟩

/-- C4: a continuation row arriving while no inverter is open is dropped:
processing it is a no-op on the loop state, and a whole stream without any
7-cell row leaves the state at its entry value and produces an empty
inverter list (and, the step function being total, no exception). -/
theorem orphan_continuation_dropped :
    (∀ row : List String, row.length ≠ 7 →
      processRow initState row = initState) ∧
    (∀ rows : List (List String), (∀ r ∈ rows, r.length ≠ 7) →
      runRows rows = initState ∧ invertersOf rows = []) := by
  have hstep : ∀ row : List String, row.length ≠ 7 →
      processRow initState row = initState := fun row h =>
    processRow_drop initState row h rfl
  refine ⟨hstep, ?_⟩
  have haux : ∀ rows : List (List String), (∀ r ∈ rows, r.length ≠ 7) →
      rows.foldl processRow initState = initState := by
    intro rows
    induction rows with
    | nil => intro _; rfl
    | cons r rs ih =>
      intro h
      rw [List.foldl_cons, hstep r (h r (List.mem_cons_self r rs))]
      exact ih (fun d hd => h d (List.mem_cons_of_mem r hd))
  intro rows h
  refine ⟨haux rows h, ?_⟩
  unfold invertersOf
  rw [show runRows rows = initState from haux rows h]
  rfl

/-- C4 witness: a single 4-cell continuation row with no preceding 7-cell
row yields the empty inverter list. -/
theorem orphan_continuation_dropped_witness :
    invertersOf [["406000111-2", "140 W", "29 V", "231 V"]] = [] :=
  (orphan_continuation_dropped.2
    [["406000111-2", "140 W", "29 V", "231 V"]] (by decide)).2

/-- C5: when the summary document yields no ECU ID (label absent or no
following value cell), the whole fetch returns the single failure value
`none` — never a partially-filled snapshot — and the result does not
depend on the realtime-data response, which is never reached. -/
theorem missing_ecu_id_fails_fetch (addr al : String) (doc : SummaryDoc)
    (rt rt' : Option (List (List String)))
    (h : findLabeledValue doc "ECU ID" = none) :
    get_ecu_data addr al ⟨some doc, rt⟩ = none ∧
    get_ecu_data addr al ⟨some doc, rt⟩ = get_ecu_data addr al ⟨some doc, rt'⟩ := by
  constructor <;> simp [get_ecu_data, get_ecu_data_body, h]

/-- C5 witness: a concrete summary document without the "ECU ID" label
makes the fetch fail regardless of the realtime response. -/
theorem missing_ecu_id_fails_fetch_witness :
    get_ecu_data "192.168.1.20" "ecu"
        ⟨some [("Lifetime generation", some "3055.5 kWh")],
          some [["406000111-1", "150 W", "30 V", "50.0 Hz", "230 V",
            "25 Â°C", "2024-05-01 12:00:00"]]⟩ = none ∧
    get_ecu_data "192.168.1.20" "ecu"
        ⟨some [("Lifetime generation", some "3055.5 kWh")],
          some [["406000111-1", "150 W", "30 V", "50.0 Hz", "230 V",
            "25 Â°C", "2024-05-01 12:00:00"]]⟩ =
      get_ecu_data "192.168.1.20" "ecu"
        ⟨some [("Lifetime generation", some "3055.5 kWh")], none⟩ :=
  missing_ecu_id_fails_fetch "192.168.1.20" "ecu"
    [("Lifetime generation", some "3055.5 kWh")]
    (some [["406000111-1", "150 W", "30 V", "50.0 Hz", "230 V", "25 Â°C",
      "2024-05-01 12:00:00"]])
    none (by decide)

/-- C6: `get_ecu_data` never propagates an exception: every error of the
pipeline body collapses to the one failure value `none`, every success is
returned as the snapshot, and any two failing runs are indistinguishable
to the caller whatever their causes. -/
theorem fetch_never_raises :
    (∀ (addr al : String) (inp : FetchInput),
      (∃ e, get_ecu_data_body addr al inp = Except.error e) →
      get_ecu_data addr al inp = none) ∧
    (∀ (addr al : String) (inp : FetchInput) (d : EcuData),
      get_ecu_data_body addr al inp = Except.ok d →
      get_ecu_data addr al inp = some d) ∧
    (∀ (a1 l1 : String) (i1 : FetchInput) (a2 l2 : String) (i2 : FetchInput)
      (e1 e2 : PyErr),
      get_ecu_data_body a1 l1 i1 = Except.error e1 →
      get_ecu_data_body a2 l2 i2 = Except.error e2 →
      get_ecu_data a1 l1 i1 = get_ecu_data a2 l2 i2) := by
  refine ⟨?_, ?_, ?_⟩
  · intro addr al inp ⟨e, he⟩
    unfold get_ecu_data
    rw [he]
  · intro addr al inp d hd
    unfold get_ecu_data
    rw [hd]
  · intro a1 l1 i1 a2 l2 i2 e1 e2 h1 h2
    unfold get_ecu_data
    rw [h1, h2]

/-- C6 witness: a network failure on the first request and a missing ECU
ID are indistinguishable outcomes, and a failing body yields `none`. -/
theorem fetch_never_raises_witness :
    get_ecu_data "10.0.0.1" "a" ⟨none, none⟩ = none ∧
    get_ecu_data "10.0.0.1" "a" ⟨none, none⟩ =
      get_ecu_data "10.0.0.2" "b"
        ⟨some [("Lifetime generation", some "1 kWh")], none⟩ :=
  ⟨fetch_never_raises.1 "10.0.0.1" "a" ⟨none, none⟩ ⟨PyErr.network, rfl⟩,
    fetch_never_raises.2.2 "10.0.0.1" "a" ⟨none, none⟩ "10.0.0.2" "b"
      ⟨some [("Lifetime generation", some "1 kWh")], none⟩
      PyErr.network PyErr.attrErr rfl rfl⟩

/-- C7: summary-field isolation. If exactly the field `f` of a document
fails to extract (label missing or value unparsable) then the constructed
record holds `f` at its documented default, while every other field
agrees with the extraction from any document whose other labels read the
same — extracting one field neither contaminates nor aborts the rest. -/
theorem summary_field_isolation (d d' : SummaryDoc) (idStr addr al : String)
    (f : SummaryField)
    (hagree : ∀ g : SummaryField, g ≠ f →
      findLabeledValue d (fieldLabel g) = findLabeledValue d' (fieldLabel g))
    (hfail : (coerceField d f).2 = true) :
    getField (extractSummary d idStr addr al) f = fieldDefault f ∧
    ∀ g : SummaryField, g ≠ f →
      getField (extractSummary d idStr addr al) g =
        getField (extractSummary d' idStr addr al) g := by
  constructor
  · rw [getField_extractSummary]
    exact coerceField_fail_default d f hfail
  · intro g hg
    rw [getField_extractSummary, getField_extractSummary,
      coerceField_congr d d' g (hagree g hg)]

/-- C7 witness: a document whose "Last System Power" value is unparsable
yields the default 0 for that field while all other fields match the
extraction from the intact document. -/
theorem summary_field_isolation_witness :
    getField
        (extractSummary
          [("ECU ID", some "215000001"),
            ("Lifetime generation", some "3055.5 kWh"),
            ("Last System Power", some "bad"),
            ("Generation of Current Day", some "12.5 kWh"),
            ("Number of Inverters", some "4"),
            ("Last Number of Inverters Online", some "3"),
            ("Current Software Version", some "V4.1")]
          "215000001" "192.168.1.20" "ecu") SummaryField.sysPower =
      fieldDefault SummaryField.sysPower ∧
    ∀ g : SummaryField, g ≠ SummaryField.sysPower →
      getField
          (extractSummary
            [("ECU ID", some "215000001"),
              ("Lifetime generation", some "3055.5 kWh"),
              ("Last System Power", some "bad"),
              ("Generation of Current Day", some "12.5 kWh"),
              ("Number of Inverters", some "4"),
              ("Last Number of Inverters Online", some "3"),
              ("Current Software Version", some "V4.1")]
            "215000001" "192.168.1.20" "ecu") g =
        getField
          (extractSummary
            [("ECU ID", some "215000001"),
              ("Lifetime generation", some "3055.5 kWh"),
              ("Last System Power", some "850 W"),
              ("Generation of Current Day", some "12.5 kWh"),
              ("Number of Inverters", some "4"),
              ("Last Number of Inverters Online", some "3"),
              ("Current Software Version", some "V4.1")]
            "215000001" "192.168.1.20" "ecu") g :=
  summary_field_isolation
    [("ECU ID", some "215000001"),
      ("Lifetime generation", some "3055.5 kWh"),
      ("Last System Power", some "bad"),
      ("Generation of Current Day", some "12.5 kWh"),
      ("Number of Inverters", some "4"),
      ("Last Number of Inverters Online", some "3"),
      ("Current Software Version", some "V4.1")]
    [("ECU ID", some "215000001"),
      ("Lifetime generation", some "3055.5 kWh"),
      ("Last System Power", some "850 W"),
      ("Generation of Current Day", some "12.5 kWh"),
      ("Number of Inverters", some "4"),
      ("Last Number of Inverters Online", some "3"),
      ("Current Software Version", some "V4.1")]
    "215000001" "192.168.1.20" "ecu" SummaryField.sysPower
    (by decide) (by decide)

/-- C8: integer coercion with the unit suffix " W" maps "123 W" to 123
with no warning, and unparsable text to the default 0 with a warning in
place of a raised error — both for the summary-page form
`int(text.replace(" W", ""))` and the realtime-row form
`int(cells[i].text.replace("W", "").strip())`. -/
theorem coerce_int_unit_suffix :
    coerceInt "123 W" " W" = (123, false) ∧
    coerceInt "bad" " W" = (0, true) ∧
    tryIntCell ["x", "123 W"] 1 "W" = (123, false) ∧
    tryIntCell ["x", "bad"] 1 "W" = (0, true) := by
  decide

/-- C9: a 7-cell row whose timestamp cell fails the
"%Y-%m-%d %H:%M:%S" parse still opens its inverter with the sentinel
zero report time, logs a warning, and processes the rest of the row —
the inverter's other fields and the embedded module are built normally
and no failure escapes the step. -/
theorem bad_timestamp_degrades_gracefully (st : RowState)
    (row : List String) (h7 : row.length = 7) (hwf : wfId row)
    (hbad : strptimeYmdHMS (pyStrip (row.getD 6 "")) = none) :
    (processRow st row).curr =
      some ((newInverterOf row).add_solar_module (embeddedModuleOf row)) ∧
    (newInverterOf row)._reportingtime = ReportTime.zero ∧
    st.warns < (processRow st row).warns := by
  have h6 : 6 < row.length := by omega
  have hget : row.get? 6 = some (row.getD 6 "") := by
    rw [List.getD_eq_getElem _ _ h6]
    exact List.get?_eq_get h6
  have htime : tryTimeCell row 6 = (ReportTime.zero, true) := by
    have hbad' : strptimeYmdHMS (pyStrip (row[6]?.getD "")) = none := by
      simpa using hbad
    unfold tryTimeCell
    rw [hget]
    simp [hbad']
  rw [processRow_seven st row h7 hwf]
  refine ⟨rfl, ?_, ?_⟩
  · simp [newInverterOf, htime]
  · simp only [htime, Bool.toNat_true]
    omega

/-- C9 witness: a concrete 7-cell row carrying "not a time" in cell 6
still yields the open inverter with its embedded module, a sentinel
report time, and a strictly increased warning count. -/
theorem bad_timestamp_degrades_gracefully_witness :
    (processRow initState
        ["406000111-1", "150 W", "30 V", "50.0 Hz", "230 V", "25 Â°C",
          "not a time"]).curr =
      some ((newInverterOf
          ["406000111-1", "150 W", "30 V", "50.0 Hz", "230 V", "25 Â°C",
            "not a time"]).add_solar_module
        (embeddedModuleOf
          ["406000111-1", "150 W", "30 V", "50.0 Hz", "230 V", "25 Â°C",
            "not a time"])) ∧
    (newInverterOf
        ["406000111-1", "150 W", "30 V", "50.0 Hz", "230 V", "25 Â°C",
          "not a time"])._reportingtime = ReportTime.zero ∧
    initState.warns <
      (processRow initState
        ["406000111-1", "150 W", "30 V", "50.0 Hz", "230 V", "25 Â°C",
          "not a time"]).warns :=
  bad_timestamp_degrades_gracefully initState
    ["406000111-1", "150 W", "30 V", "50.0 Hz", "230 V", "25 Â°C",
      "not a time"] rfl (by decide) (by decide)

/-- C10: a 7-cell row whose first cell carries no "-" separator still
opens an inverter named by the whole first-cell string, which is flushed
into the gateway list, but the embedded module is silently lost: the
`id_parts[1]` IndexError is logged (one error) and swallowed, so the
snapshot contains an inverter with zero modules. -/
theorem inverter_opened_without_modules :
    invertersOf
        [["406000999", "150 W", "30 V", "50.0 Hz", "230 V", "25 Â°C",
          "2024-05-01 12:00:00"]] =
      [newInverterOf
        ["406000999", "150 W", "30 V", "50.0 Hz", "230 V", "25 Â°C",
          "2024-05-01 12:00:00"]] ∧
    (newInverterOf
        ["406000999", "150 W", "30 V", "50.0 Hz", "230 V", "25 Â°C",
          "2024-05-01 12:00:00"])._solarmodules = [] ∧
    (newInverterOf
        ["406000999", "150 W", "30 V", "50.0 Hz", "230 V", "25 Â°C",
          "2024-05-01 12:00:00"])._id = "406000999" ∧
    (runRows
        [["406000999", "150 W", "30 V", "50.0 Hz", "230 V", "25 Â°C",
          "2024-05-01 12:00:00"]]).errs = 1 := by
  have h := processRow_seven_nowf initState
    ["406000999", "150 W", "30 V", "50.0 Hz", "230 V", "25 Â°C",
      "2024-05-01 12:00:00"] rfl (by decide)
  refine ⟨?_, rfl, by decide, ?_⟩
  · unfold invertersOf runRows
    rw [List.foldl_cons, List.foldl_nil, h]
    simp [flushFinal, initState]
  · unfold runRows
    rw [List.foldl_cons, List.foldl_nil, h]
    simp [initState]
